import Mathlib

/-!
Shallow embedding of the Neptrax contact-form feature:

* `src/supabase/functions/send-contact-email/index.ts` — the Deno edge
  handler (`Deno.serve` callback), embedded as the pure function `handle`
  over the request method, the parsed JSON body, the environment
  configuration and the delivery provider's reply.  The outbound fetch to
  the provider is recorded in the output (`HandlerOutput.sent`); the
  rendered HTML document and the request-time timestamp that only feed the
  HTML are not modelled.
* `src/unnamed/part_000` — the React contact form component, whose
  `validateForm` and `handleSubmit` are embedded as state transformers
  over `FormState`, with the outbound POST recorded in the result.

Strings are sequences of Unicode code points (JavaScript's UTF-16 code-unit
length differs only on astral-plane characters).
-/

/-- ECMAScript whitespace class `\s` (WhiteSpace ∪ LineTerminator): used by
both the email regex character class `[^\s@]` and `String.prototype.trim`. -/
def jsWhitespace (c : Char) : Bool :=
  c == ' ' || c == '\t' || c == '\n' || c == '\r' || c == '\x0b' || c == '\x0c' ||
  c == '\u00A0' || c == '\uFEFF' || c == '\u1680' ||
  (0x2000 ≤ c.toNat && c.toNat ≤ 0x200A) ||
  c == '\u2028' || c == '\u2029' || c == '\u202F' || c == '\u205F' || c == '\u3000'

/-- The character class `[^\s@]` of the shared email regex. -/
def classA (c : Char) : Bool :=
  !jsWhitespace c && c != '@'

/-- JavaScript `String.prototype.trim` on the underlying character list. -/
def trimL (l : List Char) : List Char :=
  ((l.dropWhile jsWhitespace).reverse.dropWhile jsWhitespace).reverse

/-- JavaScript `String.prototype.trim`. -/
def trimJs (s : String) : String :=
  ⟨trimL s.toList⟩

/-- JavaScript template-literal coercion of a possibly-undefined string. -/
def jsToString : Option String → String
  | some s => s
  | none => "undefined"

/-- JavaScript `x || dflt` on a possibly-undefined string `x`. -/
def jsOr (o : Option String) (dflt : String) : String :=
  match o with
  | some s => if s == "" then dflt else s
  | none => dflt

/-- JavaScript falsiness `!x` of a possibly-undefined string `x`:
true exactly for `undefined` and the empty string. -/
def falsyOpt : Option String → Bool
  | none => true
  | some s => s == ""

/-- JavaScript truthiness of a possibly-undefined string. -/
def truthyOpt (o : Option String) : Bool :=
  !falsyOpt o

/-- The test `emailRegex.test s` for the regex `/^[^\s@]+@[^\s@]+\.[^\s@]+$/`
shared by the handler and the form.  The character classes exclude `@`, so a
match puts its `@` at the first `@` of the string; after it, the pattern
`[^\s@]+\.[^\s@]+` holds of `m` exactly when every character of `m` is in the
class and some `.` of `m` is neither its first nor its last character
(`.` itself belongs to `[^\s@]`). -/
def emailRegexTest (s : String) : Bool :=
  match s.toList.dropWhile (fun c => c != '@') with
  | '@' :: m =>
      !(s.toList.takeWhile (fun c => c != '@')).isEmpty &&
      (s.toList.takeWhile (fun c => c != '@')).all classA &&
      m.all classA &&
      m.tail.dropLast.any (fun c => c == '.')
  | _ => false

/-- Declarative semantics of the regex `/^[^\s@]+@[^\s@]+\.[^\s@]+$/`: the
string decomposes as `a ++ "@" ++ b ++ "." ++ c` with `a`, `b`, `c` non-empty
and drawn from `[^\s@]`. -/
def emailRegexMatches (s : String) : Prop :=
  ∃ a b c : List Char, a ≠ [] ∧ b ≠ [] ∧ c ≠ [] ∧
    (∀ x ∈ a, classA x = true) ∧ (∀ x ∈ b, classA x = true) ∧
    (∀ x ∈ c, classA x = true) ∧
    s.toList = a ++ '@' :: (b ++ '.' :: c)

/-- Modelled from the spec's words (for comparison with the code's regex,
not from the source): the `local-part@domain.tld` shape as the spec
describes it — at least one `@`, at least one `.` somewhere after that `@`,
and no whitespace anywhere. -/
def specEmailShapeB (s : String) : Bool :=
  s.toList.any (fun c => c == '@') &&
  ((s.toList.dropWhile (fun c => c != '@')).tail.any (fun c => c == '.')) &&
  s.toList.all (fun c => !jsWhitespace c)

/-- The parsed JSON body of a contact request (`interface ContactFormData`);
each field is `none` when the JSON omits it. -/
structure ContactFormData where
  name : Option String
  email : Option String
  subject : Option String
  message : Option String
deriving DecidableEq

/-- The two environment values the handler reads at invocation time:
`Deno.env.get "RESEND_API_KEY"` and `Deno.env.get "RECEIVING_EMAIL"`. -/
structure Env where
  resendApiKey : Option String
  receivingEmail : Option String
deriving DecidableEq

/-- The delivery provider's reply to the handler's fetch:
`resendResponse.ok`, and the `message` and `id` fields of the parsed
`resendData` (absent fields are `none`). -/
structure ResendResult where
  ok : Bool
  message : Option String
  id : Option String
deriving DecidableEq

/-- The outbound request the handler sends to the provider.  The rendered
HTML body is not modelled; the routing fields and the subject line are. -/
structure ResendRequest where
  url : String
  fromAddr : String
  toAddrs : List String
  replyTo : String
  subject : String
deriving DecidableEq

/-- A response body: `empty` for the `null` body of the preflight response,
`err` for `{error, details?}` payloads, `sent` for
`{success: true, message, id?}`. -/
inductive RespBody where
  | empty : RespBody
  | err (error : String) (details : Option String) : RespBody
  | sent (message : String) (id : Option String) : RespBody
deriving DecidableEq

/-- An HTTP response: status code, body, headers in order. -/
structure Response where
  status : Nat
  body : RespBody
  headers : List (String × String)
deriving DecidableEq

/-- What one handler invocation produces: its HTTP response and the list of
outbound provider requests it performed (in order). -/
structure HandlerOutput where
  response : Response
  sent : List ResendRequest
deriving DecidableEq

/-- The `corsHeaders` constant of the handler. -/
def corsHeaders : List (String × String) :=
  [("Access-Control-Allow-Origin", "*"),
   ("Access-Control-Allow-Methods", "GET, POST, PUT, DELETE, OPTIONS"),
   ("Access-Control-Allow-Headers", "Content-Type, Authorization, X-Client-Info, Apikey")]

/-- Headers of every JSON response: `{...corsHeaders, "Content-Type": "application/json"}`. -/
def jsonHeaders : List (String × String) :=
  corsHeaders ++ [("Content-Type", "application/json")]

/-- Response of the `!name || !email || !message` check. -/
def missingFieldsResp : Response :=
  ⟨400, .err "Missing required fields" (some "name, email, and message are all required"),
   jsonHeaders⟩

/-- Response of the `!emailRegex.test email` check. -/
def invalidEmailResp : Response :=
  ⟨400, .err "Invalid email format" none, jsonHeaders⟩

/-- Response of the `message.trim().length < 10` check. -/
def tooShortResp : Response :=
  ⟨400, .err "Message too short" (some "Message must be at least 10 characters long"),
   jsonHeaders⟩

/-- Response of the `!RESEND_API_KEY` check. -/
def configErrorResp : Response :=
  ⟨500, .err "Server configuration error" none, jsonHeaders⟩

/-- Response of the `req.method !== "POST"` check. -/
def methodNotAllowedResp : Response :=
  ⟨405, .err "Method not allowed" none, jsonHeaders⟩

/-- The `emailSubject` constant of the handler:
`subject ? `Contact Form: ...` : `New Contact Form Submission from ...``. -/
def emailSubjectOf (subject name : Option String) : String :=
  if truthyOpt subject then "Contact Form: " ++ jsToString subject
  else "New Contact Form Submission from " ++ jsToString name

/-- The body of the handler after a successful parse of a POST body:
required-field check, email-format check, message-length check,
configuration check, then the provider fetch and the outcome mapping. -/
def handleParsed (d : ContactFormData) (env : Env) (resend : ResendResult) : HandlerOutput :=
  if falsyOpt d.name || falsyOpt d.email || falsyOpt d.message then
    ⟨missingFieldsResp, []⟩
  else if !emailRegexTest (jsToString d.email) then
    ⟨invalidEmailResp, []⟩
  else if (trimJs (jsToString d.message)).length < 10 then
    ⟨tooShortResp, []⟩
  else if falsyOpt env.resendApiKey then
    ⟨configErrorResp, []⟩
  else
    let req : ResendRequest :=
      ⟨"https://api.resend.com/emails",
       "Neptrax Contact Form <onboarding@resend.dev>",
       [jsOr env.receivingEmail "info@neptrax.com"],
       jsToString d.email,
       emailSubjectOf d.subject d.name⟩
    if resend.ok then
      ⟨⟨200, .sent "Email sent successfully" resend.id, jsonHeaders⟩, [req]⟩
    else
      ⟨⟨500, .err "Failed to send email" (some (jsOr resend.message "Unknown error")),
        jsonHeaders⟩, [req]⟩

/-- The `Deno.serve` callback: preflight answer, method check, then parse
(`body` is the outcome of `req.json()`; a parse throw is caught by the
handler's top-level catch and surfaces as the 500 internal-error response),
then the parsed pipeline. -/
def handle (method : String) (body : Except String ContactFormData)
    (env : Env) (resend : ResendResult) : HandlerOutput :=
  if method == "OPTIONS" then
    ⟨⟨200, .empty, corsHeaders⟩, []⟩
  else if method != "POST" then
    ⟨methodNotAllowedResp, []⟩
  else
    match body with
    | .error msg => ⟨⟨500, .err "Internal server error" (some msg), jsonHeaders⟩, []⟩
    | .ok d => handleParsed d env resend

/-- The four editable fields of the form component's `formData` state. -/
structure FormFields where
  name : String
  email : String
  subject : String
  message : String
deriving DecidableEq

/-- The `type` of the form's `submitStatus` state. -/
inductive StatusType where
  | success : StatusType
  | error : StatusType
deriving DecidableEq

/-- The form's `submitStatus` state: `{type: 'success' | 'error' | null, message}`. -/
structure SubmitStatus where
  type : Option StatusType
  message : String
deriving DecidableEq

/-- The form component's state: `formData`, `isSubmitting`, `submitStatus`,
and `validationErrors` (the optional `email` and `message` entries). -/
structure FormState where
  formData : FormFields
  isSubmitting : Bool
  submitStatus : SubmitStatus
  validationErrors : Option String × Option String
deriving DecidableEq

/-- The error mapping `validateForm` builds: an `email` entry when the email
is non-empty and fails the shared regex, a `message` entry when the message
is non-empty and its trimmed length is below 10. -/
def formValidationErrors (fd : FormFields) : Option String × Option String :=
  ((if fd.email != "" && !emailRegexTest fd.email then
      some "Please enter a valid email address" else none),
   (if fd.message != "" && decide ((trimJs fd.message).length < 10) then
      some "Message must be at least 10 characters long" else none))

/-- The component's `validateForm`: stores the computed error mapping in
`validationErrors` and returns whether the mapping is empty. -/
def validateFormS (s : FormState) : FormState × Bool :=
  let errs := formValidationErrors s.formData
  ({ s with validationErrors := errs }, errs.1.isNone && errs.2.isNone)

/-- The endpoint the form posts to:
`{VITE_SUPABASE_URL}/functions/v1/send-contact-email`. -/
def contactUrl (baseUrl : String) : String :=
  baseUrl ++ "/functions/v1/send-contact-email"

/-- One outbound POST issued by the form: its URL and the `formData` payload
serialized as the JSON body. -/
structure SubmitRequest where
  url : String
  payload : FormFields
deriving DecidableEq

/-- The environment's answer to the form's fetch: a response with its `ok`
flag and the `error` field of the parsed JSON (absent is `none`), or a
transport failure that makes the fetch throw. -/
inductive FetchOutcome where
  | response (ok : Bool) (error : Option String) : FetchOutcome
  | netError : FetchOutcome
deriving DecidableEq

/-- The component's `handleSubmit`: validate, bail out with the fixed error
status and no network call on failure; otherwise issue exactly one POST and
map its outcome onto the component state, resetting the fields on success
and always ending with `isSubmitting = false`. -/
def handleSubmit (baseUrl : String) (s : FormState) (net : FetchOutcome) :
    FormState × List SubmitRequest :=
  let v := validateFormS s
  let s1 := v.1
  if !v.2 then
    ({ s1 with submitStatus :=
        ⟨some .error, "Please fix the validation errors before submitting."⟩ }, [])
  else
    let req : SubmitRequest := ⟨contactUrl baseUrl, s1.formData⟩
    match net with
    | .response ok err =>
      if ok then
        ({ s1 with isSubmitting := false,
                   submitStatus :=
                     ⟨some .success, "Thank you for your message! We will get back to you soon."⟩,
                   formData := ⟨"", "", "", ""⟩,
                   validationErrors := (none, none) }, [req])
      else
        ({ s1 with isSubmitting := false,
                   submitStatus :=
                     ⟨some .error, jsOr err "Failed to send message. Please try again."⟩ }, [req])
    | .netError =>
        ({ s1 with isSubmitting := false,
                   submitStatus :=
                     ⟨some .error, "Network error. Please check your connection and try again."⟩ },
         [req])

theorem takeWhile_of_split (p : Char → Bool) (a t : List Char) (x : Char)
    (ha : ∀ y ∈ a, p y = true) (hx : p x = false) :
    (a ++ x :: t).takeWhile p = a ∧ (a ++ x :: t).dropWhile p = x :: t := by
  induction a with
  | nil => simp [List.takeWhile_cons, List.dropWhile_cons, hx]
  | cons y ys ih =>
      have hy : p y = true := ha y (by simp)
      have ih' := ih fun z hz => ha z (by simp [hz])
      simp [List.takeWhile_cons, List.dropWhile_cons, hy, ih'.1, ih'.2]

theorem dropWhile_head_false (p : Char → Bool) (l m : List Char) (x : Char)
    (h : l.dropWhile p = x :: m) : p x = false := by
  induction l with
  | nil => simp [List.dropWhile] at h
  | cons y ys ih =>
      rw [List.dropWhile_cons] at h
      by_cases hy : p y = true
      · rw [if_pos hy] at h; exact ih h
      · rw [if_neg hy] at h
        injection h with h1 _
        subst h1
        exact Bool.not_eq_true _ ▸ hy

theorem tail_matches_iff (m : List Char) :
    (m.all classA = true ∧ m.tail.dropLast.any (fun c => c == '.') = true) ↔
    ∃ b c : List Char, b ≠ [] ∧ c ≠ [] ∧ (∀ x ∈ b, classA x = true) ∧
      (∀ x ∈ c, classA x = true) ∧ m = b ++ '.' :: c := by
  constructor
  · rintro ⟨hall, hdot⟩
    rw [List.any_eq_true] at hdot
    obtain ⟨d, hd, hde⟩ := hdot
    have hde' : d = '.' := by simpa using hde
    subst hde'
    obtain ⟨s, t, hst⟩ := List.append_of_mem hd
    cases m with
    | nil => simp at hst
    | cons x r =>
      have hr : r.dropLast = s ++ '.' :: t := by simpa using hst
      have hrne : r ≠ [] := by
        intro h; rw [h] at hr; simp at hr
      have hm : x :: r = (x :: s) ++ '.' :: (t ++ [r.getLast hrne]) := by
        conv_lhs => rw [← List.dropLast_append_getLast hrne]
        rw [hr]; simp
      rw [List.all_eq_true] at hall
      refine ⟨x :: s, t ++ [r.getLast hrne], by simp, by simp, ?_, ?_, hm⟩
      · intro z hz
        exact hall z (hm ▸ List.mem_append_left _ hz)
      · intro z hz
        exact hall z (hm ▸ List.mem_append_right _ (List.mem_cons_of_mem _ hz))
  · rintro ⟨b, c, hb, hc, hbA, hcA, hm⟩
    subst hm
    constructor
    · rw [List.all_eq_true]
      intro z hz
      rcases List.mem_append.mp hz with h | h
      · exact hbA z h
      · rcases List.mem_cons.mp h with h | h
        · subst h; decide
        · exact hcA z h
    · obtain ⟨x, b', rfl⟩ := List.exists_cons_of_ne_nil hb
      rcases List.eq_nil_or_concat c with rfl | ⟨c', y, rfl⟩
      · exact absurd rfl hc
      · rw [List.any_eq_true]
        refine ⟨'.', ?_, by decide⟩
        have h1 : ((x :: b') ++ '.' :: c'.concat y).tail = (b' ++ '.' :: c') ++ [y] := by
          simp [List.concat_eq_append]
        rw [h1, List.dropLast_concat]
        exact List.mem_append_right _ (List.mem_cons_self _ _)

/-- The executable regex test agrees with the declarative decomposition
semantics of `/^[^\s@]+@[^\s@]+\.[^\s@]+$/`. -/
theorem emailRegexTest_iff (s : String) :
    emailRegexTest s = true ↔ emailRegexMatches s := by
  constructor
  · intro h
    unfold emailRegexTest at h
    split at h
    case h_2 => exact absurd h (by simp)
    case h_1 m heq =>
      simp only [Bool.and_eq_true] at h
      obtain ⟨⟨⟨hne, haall⟩, hmall⟩, hdot⟩ := h
      obtain ⟨b, c, hb, hc, hbA, hcA, hm⟩ := (tail_matches_iff m).mp ⟨hmall, hdot⟩
      refine ⟨s.toList.takeWhile (fun c => c != '@'), b, c, ?_, hb, hc, ?_, hbA, hcA, ?_⟩
      · intro hnil
        rw [hnil] at hne
        simp at hne
      · intro z hz
        exact (List.all_eq_true.mp haall) z hz
      · have := List.takeWhile_append_dropWhile (fun c => c != '@') s.toList
        rw [heq] at this
        rw [hm] at this
        exact this.symm
  · rintro ⟨a, b, c, ha, hb, hc, haA, hbA, hcA, hs⟩
    have h1 : ∀ y ∈ a, (fun c => c != '@') y = true := by
      intro y hy
      have := haA y hy
      simp only [classA, Bool.and_eq_true] at this
      exact this.2
    have h2 : (fun c => c != '@') '@' = false := by decide
    obtain ⟨htake, hdrop⟩ := takeWhile_of_split (fun c => c != '@') a (b ++ '.' :: c) '@' h1 h2
    unfold emailRegexTest
    rw [hs, hdrop, htake]
    simp only [Bool.and_eq_true]
    refine ⟨⟨⟨?_, ?_⟩, ?_⟩, ?_⟩
    · simp [List.isEmpty_iff, ha]
    · rw [List.all_eq_true]; exact haA
    · exact ((tail_matches_iff _).mpr ⟨b, c, hb, hc, hbA, hcA, rfl⟩).1
    · exact ((tail_matches_iff _).mpr ⟨b, c, hb, hc, hbA, hcA, rfl⟩).2

theorem handle_post_ok (d : ContactFormData) (env : Env) (r : ResendResult) :
    handle "POST" (.ok d) env r = handleParsed d env r := rfl

theorem handle_headers (method : String) (body : Except String ContactFormData)
    (env : Env) (r : ResendResult) :
    (handle method body env r).response.headers = corsHeaders ∨
    (handle method body env r).response.headers = jsonHeaders := by
  unfold handle handleParsed
  repeat' split
  all_goals first
    | (left; rfl)
    | (right; rfl)

/-- C3: a POST body in which any of name, email or message is missing or
empty draws the exact 400 response
`{error: "Missing required fields", details: "name, email, and message are all required"}`,
and no provider request is made. -/
theorem missing_required_fields_400 (d : ContactFormData) (env : Env) (r : ResendResult)
    (h : (falsyOpt d.name || falsyOpt d.email || falsyOpt d.message) = true) :
    handle "POST" (.ok d) env r = ⟨missingFieldsResp, []⟩ := by
  rw [handle_post_ok]
  unfold handleParsed
  rw [if_pos h]

theorem missing_required_fields_400_witness :
    handle "POST" (.ok ⟨none, some "ada@example.com", none, some "Hello, this is a test message."⟩)
      ⟨some "key", none⟩ ⟨true, none, none⟩ = ⟨missingFieldsResp, []⟩ :=
  missing_required_fields_400 _ _ _ (by decide)

/-- C6: every response the handler produces carries the three CORS headers
(origin `*`, methods `GET, POST, PUT, DELETE, OPTIONS`, headers
`Content-Type, Authorization, X-Client-Info, Apikey`), and an OPTIONS
request draws a 200 response with empty body and exactly those headers. -/
theorem responses_carry_cors (method : String) (body : Except String ContactFormData)
    (env : Env) (r : ResendResult) :
    (("Access-Control-Allow-Origin", "*") ∈ (handle method body env r).response.headers ∧
     ("Access-Control-Allow-Methods", "GET, POST, PUT, DELETE, OPTIONS")
        ∈ (handle method body env r).response.headers ∧
     ("Access-Control-Allow-Headers", "Content-Type, Authorization, X-Client-Info, Apikey")
        ∈ (handle method body env r).response.headers) ∧
    handle "OPTIONS" body env r = ⟨⟨200, .empty, corsHeaders⟩, []⟩ := by
  refine ⟨?_, rfl⟩
  rcases handle_headers method body env r with h | h <;> rw [h] <;> exact by decide

/-- C5: the handler applies its checks in the fixed order method → parse →
required-fields → email-format → message-length → configuration, the first
failing check determining the response; in particular the input
`{name: "", email: "bob@example.com", message: "short"}` draws the 400
missing-fields response, the required-field failure short-circuiting before
the message-length check. -/
theorem handler_check_order (method : String) (d : ContactFormData) (msg : String)
    (env : Env) (r : ResendResult) :
    ((method == "OPTIONS") = false → (method == "POST") = false →
       ∀ body, handle method body env r = ⟨methodNotAllowedResp, []⟩) ∧
    (handle "POST" (.error msg) env r =
       ⟨⟨500, .err "Internal server error" (some msg), jsonHeaders⟩, []⟩) ∧
    ((falsyOpt d.name || falsyOpt d.email || falsyOpt d.message) = true →
       handle "POST" (.ok d) env r = ⟨missingFieldsResp, []⟩) ∧
    ((falsyOpt d.name || falsyOpt d.email || falsyOpt d.message) = false →
       emailRegexTest (jsToString d.email) = false →
       handle "POST" (.ok d) env r = ⟨invalidEmailResp, []⟩) ∧
    ((falsyOpt d.name || falsyOpt d.email || falsyOpt d.message) = false →
       emailRegexTest (jsToString d.email) = true →
       (trimJs (jsToString d.message)).length < 10 →
       handle "POST" (.ok d) env r = ⟨tooShortResp, []⟩) ∧
    ((falsyOpt d.name || falsyOpt d.email || falsyOpt d.message) = false →
       emailRegexTest (jsToString d.email) = true →
       10 ≤ (trimJs (jsToString d.message)).length →
       falsyOpt env.resendApiKey = true →
       handle "POST" (.ok d) env r = ⟨configErrorResp, []⟩) ∧
    handle "POST" (.ok ⟨some "", some "bob@example.com", none, some "short"⟩) env r =
      ⟨missingFieldsResp, []⟩ := by
  refine ⟨?_, rfl, ?_, ?_, ?_, ?_, rfl⟩
  · intro h1 h2 body
    unfold handle
    rw [if_neg (by simp [h1]), if_pos (by simp [bne, h2])]
  · intro h
    rw [handle_post_ok]
    unfold handleParsed
    rw [if_pos h]
  · intro h1 h2
    rw [handle_post_ok]
    unfold handleParsed
    rw [if_neg (by simp [h1]), if_pos (by simp [h2])]
  · intro h1 h2 h3
    rw [handle_post_ok]
    unfold handleParsed
    rw [if_neg (by simp [h1]), if_neg (by simp [h2]), if_pos h3]
  · intro h1 h2 h3 h4
    rw [handle_post_ok]
    unfold handleParsed
    rw [if_neg (by simp [h1]), if_neg (by simp [h2]), if_neg (Nat.not_lt.mpr h3), if_pos h4]

theorem handler_check_order_witness :
    handle "PUT" (.error "boom") ⟨some "key", none⟩ ⟨true, none, none⟩ =
      ⟨methodNotAllowedResp, []⟩ ∧
    handle "POST" (.ok ⟨some "Ada", some "not-an-email", none, some "0123456789"⟩)
      ⟨some "key", none⟩ ⟨true, none, none⟩ = ⟨invalidEmailResp, []⟩ ∧
    handle "POST" (.ok ⟨some "Ada", some "ada@example.com", none, some "short"⟩)
      ⟨some "key", none⟩ ⟨true, none, none⟩ = ⟨tooShortResp, []⟩ ∧
    handle "POST" (.ok ⟨some "Ada", some "ada@example.com", none, some "Hello, this is a test message."⟩)
      ⟨none, none⟩ ⟨true, none, none⟩ = ⟨configErrorResp, []⟩ :=
  ⟨(handler_check_order "PUT" ⟨none, none, none, none⟩ "boom" ⟨some "key", none⟩
      ⟨true, none, none⟩).1 (by decide) (by decide) _,
   (handler_check_order "POST" ⟨some "Ada", some "not-an-email", none, some "0123456789"⟩ ""
      ⟨some "key", none⟩ ⟨true, none, none⟩).2.2.2.1 (by decide) (by decide),
   (handler_check_order "POST" ⟨some "Ada", some "ada@example.com", none, some "short"⟩ ""
      ⟨some "key", none⟩ ⟨true, none, none⟩).2.2.2.2.1 (by decide) (by decide) (by decide),
   (handler_check_order "POST"
      ⟨some "Ada", some "ada@example.com", none, some "Hello, this is a test message."⟩ ""
      ⟨none, none⟩ ⟨true, none, none⟩).2.2.2.2.2.1 (by decide) (by decide) (by decide) (by decide)⟩

/-- C2: a submission that fails any validation check triggers no outbound
network call — the handler answers 400 with no provider request, and the
form issues no POST when `validateForm` fails. -/
theorem invalid_submission_no_outbound_call (d : ContactFormData) (env : Env)
    (r : ResendResult) (u : String) (s : FormState) (net : FetchOutcome) :
    ((falsyOpt d.name || falsyOpt d.email || falsyOpt d.message) = true ∨
     emailRegexTest (jsToString d.email) = false ∨
     (trimJs (jsToString d.message)).length < 10 →
       (handle "POST" (.ok d) env r).sent = [] ∧
       (handle "POST" (.ok d) env r).response.status = 400) ∧
    ((validateFormS s).2 = false → (handleSubmit u s net).2 = []) := by
  constructor
  · intro h
    rw [handle_post_ok]
    unfold handleParsed
    by_cases h1 : (falsyOpt d.name || falsyOpt d.email || falsyOpt d.message) = true
    · rw [if_pos h1]; exact ⟨rfl, rfl⟩
    · rw [if_neg h1]
      by_cases h2 : emailRegexTest (jsToString d.email) = false
      · rw [if_pos (by simp [h2])]; exact ⟨rfl, rfl⟩
      · have h2' : emailRegexTest (jsToString d.email) = true := by
          simpa using h2
        rw [if_neg (by simp [h2'])]
        have h3 : (trimJs (jsToString d.message)).length < 10 := by
          rcases h with h | h | h
          · exact absurd h h1
          · exact absurd h h2
          · exact h
        rw [if_pos h3]
        exact ⟨rfl, rfl⟩
  · intro hv
    simp [handleSubmit, hv]

theorem invalid_submission_no_outbound_call_witness :
    ((handle "POST" (.ok ⟨some "Ada", some "not-an-email", none, some "Hello, this is a test message."⟩)
        ⟨some "key", none⟩ ⟨true, none, none⟩).sent = [] ∧
     (handle "POST" (.ok ⟨some "Ada", some "not-an-email", none, some "Hello, this is a test message."⟩)
        ⟨some "key", none⟩ ⟨true, none, none⟩).response.status = 400) ∧
    (handleSubmit "https://example.supabase.co"
        ⟨⟨"Ada", "not-an-email", "", "Hello, this is a test message."⟩, false, ⟨none, ""⟩, (none, none)⟩
        .netError).2 = [] :=
  ⟨(invalid_submission_no_outbound_call
      ⟨some "Ada", some "not-an-email", none, some "Hello, this is a test message."⟩
      ⟨some "key", none⟩ ⟨true, none, none⟩ "https://example.supabase.co"
      ⟨⟨"Ada", "not-an-email", "", "Hello, this is a test message."⟩, false, ⟨none, ""⟩, (none, none)⟩
      .netError).1 (Or.inr (Or.inl (by decide))),
   (invalid_submission_no_outbound_call
      ⟨some "Ada", some "not-an-email", none, some "Hello, this is a test message."⟩
      ⟨some "key", none⟩ ⟨true, none, none⟩ "https://example.supabase.co"
      ⟨⟨"Ada", "not-an-email", "", "Hello, this is a test message."⟩, false, ⟨none, ""⟩, (none, none)⟩
      .netError).2 (by decide)⟩

/-- C4 counterexample: the empty message has trimmed length below 10, yet
the handler (with name and email valid) answers with the missing-fields
response, not the message-too-short one — the claim as stated fails for
`message = ""`. -/
theorem empty_message_not_too_short :
    (trimJs (jsToString (some ""))).length < 10 ∧
    handle "POST" (.ok ⟨some "Ada", some "ada@example.com", none, some ""⟩)
        ⟨some "key", none⟩ ⟨true, none, none⟩ = ⟨missingFieldsResp, []⟩ ∧
    missingFieldsResp ≠ tooShortResp := by
  decide

/-- C4 amended: once the earlier checks pass (name, email, message present
and email well-formed), a trimmed message length below 10 draws exactly the
400 message-too-short response, and a trimmed length of at least 10 never
draws it, regardless of content. -/
theorem message_length_check_amended (d : ContactFormData) (env : Env) (r : ResendResult)
    (h1 : (falsyOpt d.name || falsyOpt d.email || falsyOpt d.message) = false)
    (h2 : emailRegexTest (jsToString d.email) = true) :
    ((trimJs (jsToString d.message)).length < 10 →
       handle "POST" (.ok d) env r = ⟨tooShortResp, []⟩) ∧
    (10 ≤ (trimJs (jsToString d.message)).length →
       (handle "POST" (.ok d) env r).response ≠ tooShortResp) := by
  constructor
  · intro h3
    rw [handle_post_ok]
    unfold handleParsed
    rw [if_neg (by simp [h1]), if_neg (by simp [h2]), if_pos h3]
  · intro h3
    rw [handle_post_ok]
    unfold handleParsed
    rw [if_neg (by simp [h1]), if_neg (by simp [h2]), if_neg (Nat.not_lt.mpr h3)]
    split
    · simp [configErrorResp, tooShortResp]
    · dsimp only
      split
      · simp [tooShortResp]
      · simp [tooShortResp]

theorem message_length_check_amended_witness :
    handle "POST" (.ok ⟨some "Ada", some "ada@example.com", none, some "   short  "⟩)
      ⟨some "key", none⟩ ⟨true, none, none⟩ = ⟨tooShortResp, []⟩ ∧
    (handle "POST" (.ok ⟨some "Ada", some "ada@example.com", none, some "Hello, this is a test message."⟩)
      ⟨some "key", none⟩ ⟨true, none, none⟩).response ≠ tooShortResp :=
  ⟨(message_length_check_amended ⟨some "Ada", some "ada@example.com", none, some "   short  "⟩
      ⟨some "key", none⟩ ⟨true, none, none⟩ (by decide) (by decide)).1 (by decide),
   (message_length_check_amended
      ⟨some "Ada", some "ada@example.com", none, some "Hello, this is a test message."⟩
      ⟨some "key", none⟩ ⟨true, none, none⟩ (by decide) (by decide)).2 (by decide)⟩

/-- C1 counterexample: `"a@b@c.d"` matches the shape the spec describes —
at least one `@`, at least one `.` after it, no whitespace — yet the code's
regex rejects it (the `[^\s@]` classes admit only one `@`), so the handler
answers 400 invalid-email-format instead of passing the check. -/
theorem spec_shape_email_rejected :
    specEmailShapeB "a@b@c.d" = true ∧
    handle "POST" (.ok ⟨some "Ada", some "a@b@c.d", none, some "Hello, this is a test message."⟩)
        ⟨some "key", none⟩ ⟨true, none, none⟩ = ⟨invalidEmailResp, []⟩ := by
  decide

/-- C1 amended: with name, email and message all non-empty, the handler's
email check passes exactly for the strings of the form
`local@rest.tail` with `local`, `rest`, `tail` non-empty and free of
whitespace and `@` (so exactly one `@`, and after it a `.` that is neither
adjacent to the `@` nor final); every other email draws the exact 400
invalid-email-format response. -/
theorem email_format_check_amended (d : ContactFormData) (env : Env) (r : ResendResult)
    (h1 : (falsyOpt d.name || falsyOpt d.email || falsyOpt d.message) = false) :
    (emailRegexMatches (jsToString d.email) →
       (handle "POST" (.ok d) env r).response ≠ invalidEmailResp) ∧
    (¬emailRegexMatches (jsToString d.email) →
       handle "POST" (.ok d) env r = ⟨invalidEmailResp, []⟩) := by
  constructor
  · intro hm
    have h2 : emailRegexTest (jsToString d.email) = true := (emailRegexTest_iff _).mpr hm
    rw [handle_post_ok]
    unfold handleParsed
    rw [if_neg (by simp [h1]), if_neg (by simp [h2])]
    split
    · simp [tooShortResp, invalidEmailResp]
    · split
      · simp [configErrorResp, invalidEmailResp]
      · dsimp only
        split
        · simp [invalidEmailResp]
        · simp [invalidEmailResp]
  · intro hm
    have h2 : emailRegexTest (jsToString d.email) = false := by
      rcases Bool.eq_false_or_eq_true (emailRegexTest (jsToString d.email)) with h | h
      · exact absurd ((emailRegexTest_iff _).mp h) hm
      · exact h
    rw [handle_post_ok]
    unfold handleParsed
    rw [if_neg (by simp [h1]), if_pos (by simp [h2])]

theorem email_format_check_amended_witness :
    (handle "POST" (.ok ⟨some "Ada", some "ada@example.com", none, some "short"⟩)
       ⟨some "key", none⟩ ⟨true, none, none⟩).response ≠ invalidEmailResp ∧
    handle "POST" (.ok ⟨some "Ada", some "nope", none, some "Hello, this is a test message."⟩)
       ⟨some "key", none⟩ ⟨true, none, none⟩ = ⟨invalidEmailResp, []⟩ :=
  ⟨(email_format_check_amended ⟨some "Ada", some "ada@example.com", none, some "short"⟩
      ⟨some "key", none⟩ ⟨true, none, none⟩ (by decide)).1
      ((emailRegexTest_iff "ada@example.com").mp (by decide)),
   (email_format_check_amended ⟨some "Ada", some "nope", none, some "Hello, this is a test message."⟩
      ⟨some "key", none⟩ ⟨true, none, none⟩ (by decide)).2
      (fun h => absurd ((emailRegexTest_iff "nope").mpr h) (by decide))⟩

/-- C7 counterexample: a submission whose subject field is present but
empty (`subject: ""`) is dispatched with the fallback subject line
`New Contact Form Submission from Ada`, not `Contact Form: {subject}` —
the claim as stated fails for a present-but-empty subject. -/
theorem present_empty_subject_fallback :
    (handle "POST"
        (.ok ⟨some "Ada", some "ada@example.com", some "", some "Hello, this is a test message."⟩)
        ⟨some "key", none⟩ ⟨true, none, some "abc123"⟩).sent.map (fun q => q.subject) =
      ["New Contact Form Submission from Ada"] ∧
    ("New Contact Form Submission from Ada" : String) ≠ "Contact Form: " := by
  decide

/-- C7 amended: for every valid submission that reaches dispatch, the
dispatched email's subject line is `Contact Form: {subject}` when subject is
present and non-empty (truthy), and `New Contact Form Submission from {name}`
otherwise — when subject is absent or the empty string. -/
theorem email_subject_line_amended (d : ContactFormData) (env : Env) (r : ResendResult)
    (h1 : (falsyOpt d.name || falsyOpt d.email || falsyOpt d.message) = false)
    (h2 : emailRegexTest (jsToString d.email) = true)
    (h3 : 10 ≤ (trimJs (jsToString d.message)).length)
    (h4 : falsyOpt env.resendApiKey = false) :
    (handle "POST" (.ok d) env r).sent.map (fun q => q.subject) =
      [if truthyOpt d.subject then "Contact Form: " ++ jsToString d.subject
       else "New Contact Form Submission from " ++ jsToString d.name] := by
  rw [handle_post_ok]
  unfold handleParsed
  rw [if_neg (by simp [h1]), if_neg (by simp [h2]), if_neg (Nat.not_lt.mpr h3),
      if_neg (by simp [h4])]
  dsimp only
  split
  · simp [emailSubjectOf]
  · simp [emailSubjectOf]

theorem email_subject_line_amended_witness :
    (handle "POST"
        (.ok ⟨some "Ada", some "ada@example.com", some "Project", some "Hello, this is a test message."⟩)
        ⟨some "key", none⟩ ⟨true, none, none⟩).sent.map (fun q => q.subject) =
      ["Contact Form: Project"] := by
  have h := email_subject_line_amended
    ⟨some "Ada", some "ada@example.com", some "Project", some "Hello, this is a test message."⟩
    ⟨some "key", none⟩ ⟨true, none, none⟩ (by decide) (by decide) (by decide) (by decide)
  rw [h]
  decide

/-- C8: the form's validation step is idempotent and pure — run twice from
the same state it produces the same verdict and the same state as run once,
and it changes nothing in the state besides `validationErrors`. -/
theorem validation_idempotent_pure (s : FormState) :
    validateFormS (validateFormS s).1 = validateFormS s ∧
    (validateFormS s).1.formData = s.formData ∧
    (validateFormS s).1.isSubmitting = s.isSubmitting ∧
    (validateFormS s).1.submitStatus = s.submitStatus :=
  ⟨rfl, rfl, rfl, rfl⟩

/-- C9: `validateForm` only checks a field whose current value is non-empty,
so a form state whose email and message are both empty validates with an
empty error mapping and verdict `true`, whatever the other fields and the
rest of the component state hold. -/
theorem empty_form_passes_validation (nm sub : String) (b : Bool)
    (st : SubmitStatus) (ve : Option String × Option String) :
    validateFormS ⟨⟨nm, "", sub, ""⟩, b, st, ve⟩ =
      (⟨⟨nm, "", sub, ""⟩, b, st, (none, none)⟩, true) :=
  rfl

/-- C10: the handler's required-field check is a falsiness check that does
not trim name or email — a whitespace-only name `" "` passes it and the
submission is dispatched — while the message is trimmed before its length
check: a 10-character message of spaces around `"hi"` is rejected as too
short even though its untrimmed length is 10. -/
theorem whitespace_name_accepted (e : String) (sub : Option String) (m : String)
    (env : Env) (r : ResendResult)
    (h2 : emailRegexTest e = true)
    (h3 : 10 ≤ (trimJs m).length)
    (h4 : falsyOpt env.resendApiKey = false) :
    (handle "POST" (.ok ⟨some " ", some e, sub, some m⟩) env r).sent ≠ [] ∧
    handle "POST" (.ok ⟨some " ", some e, sub, some "    hi    "⟩) env r =
      ⟨tooShortResp, []⟩ := by
  have he : (e == "") = false := by
    rcases Bool.eq_false_or_eq_true (e == "") with h | h
    · have : e = "" := by simpa using h
      subst this
      exact absurd h2 (by decide)
    · exact h
  constructor
  · rw [handle_post_ok]
    have hm : (m == "") = false := by
      rcases Bool.eq_false_or_eq_true (m == "") with h | h
      · have : m = "" := by simpa using h
        subst this
        exact absurd h3 (by decide)
      · exact h
    unfold handleParsed
    rw [if_neg (by simp [falsyOpt, he, hm]), if_neg (by simp [jsToString, h2]),
        if_neg (Nat.not_lt.mpr (by simpa [jsToString] using h3)), if_neg (by simp [h4])]
    dsimp only
    split
    · simp
    · simp
  · rw [handle_post_ok]
    unfold handleParsed
    rw [if_neg (by simp [falsyOpt, he]), if_neg (by simp [jsToString, h2]),
        if_pos (show (trimJs (jsToString (some "    hi    "))).length < 10 by decide)]

theorem whitespace_name_accepted_witness :
    (handle "POST"
        (.ok ⟨some " ", some "ada@example.com", none, some "Hello, this is a test message."⟩)
        ⟨some "key", none⟩ ⟨true, none, none⟩).sent ≠ [] ∧
    handle "POST" (.ok ⟨some " ", some "ada@example.com", none, some "    hi    "⟩)
        ⟨some "key", none⟩ ⟨true, none, none⟩ = ⟨tooShortResp, []⟩ :=
  whitespace_name_accepted "ada@example.com" none "Hello, this is a test message."
    ⟨some "key", none⟩ ⟨true, none, none⟩ (by decide) (by decide) (by decide)

example : emailRegexTest "ada@example.com" = true := by decide
example : emailRegexTest "a@b.c" = true := by decide
example : emailRegexTest "a@b." = false := by decide
example : emailRegexTest "a@.b" = false := by decide
example : emailRegexTest "@b.c" = false := by decide
example : emailRegexTest "a@b@c.d" = false := by decide
example : emailRegexTest "a@.b.c" = true := by decide
example : emailRegexTest "a b@c.d" = false := by decide
example : emailRegexTest "not-an-email" = false := by decide
example : specEmailShapeB "a@b@c.d" = true := by decide
example : trimJs "    hi    " = "hi" := by decide
